import Mathlib

/-!
Verification development for the realtime translation session coordinator
(`openai-realtime-agents` fork): a shallow embedding of the language-pair
inference state machine, the dual-stream transcript reconciliation logic,
the session synchronizer and the connection supervisor, together with
theorems settling the specified properties.

String values are modelled over `String.data` (lists of characters) so that
every definition is executable by the kernel. JavaScript `toLowerCase`,
`split('-')[0]`, `trim`-emptiness, `includes('-')` and `slice(0, 32)` are
embedded as character-list operations; the inputs they are applied to in the
source (language tags, item ids) are ASCII, where these agree with the
JavaScript semantics.
-/

/-- ASCII lowercasing of one character, the behaviour of JavaScript
`toLowerCase` on the ASCII language tags handled by the source. -/
def asciiToLower (c : Char) : Char :=
  if 65 ≤ c.toNat ∧ c.toNat ≤ 90 then Char.ofNat (c.toNat + 32) else c

/-- Embedding of `lang.toLowerCase().split('-')[0]` from
`normalizeLanguage` (useHandleServerEvent): lowercase, then keep the
segment before the first dash. -/
def lowerFirstSeg (s : String) : String :=
  String.mk ((s.data.map asciiToLower).takeWhile (fun c => c ≠ '-'))

/-- The language-name-to-code table inside `normalizeLanguage`
(useHandleServerEvent, `updateLanguageState`). -/
def langMap : List (String × String) :=
  [("Chinese", "zh"), ("English", "en"), ("Spanish", "es"), ("French", "fr"),
   ("German", "de"), ("Japanese", "ja"), ("Russian", "ru"), ("Korean", "ko"),
   ("Arabic", "ar"), ("Hindi", "hi"), ("Portuguese", "pt"), ("Italian", "it"),
   ("Dutch", "nl"), ("Greek", "el"), ("Thai", "th")]

/-- Embedding of `normalizeLanguage` from `updateLanguageState`
(useHandleServerEvent): `langMap[lang] || lang.toLowerCase().split('-')[0]`. -/
def normalizeLanguage (lang : String) : String :=
  match langMap.lookup lang with
  | some code => code
  | none => lowerFirstSeg lang

/-- The session's language-pair state: `mainLang`, `lastTargetLang` and
`isFirstMessage` from App.tsx (initialised to `"zh"`, `"en"`, `true`). -/
structure LangState where
  mainLang : String
  targetLang : String
  isFirst : Bool
deriving DecidableEq, Repr

/-- Embedding of `updateLanguageState` (useHandleServerEvent) with every
scheduled `setTimeout` effect applied, mapping a detected language and the
current state to the settled next state.  The first branch sets the main
language to the normalised detection and the target to `"en"` unless the
detection is `"en"` (then `"zh"`), and flips the first-message flag; the
steady branch overrides the target for a new language, swaps for the target
language, and leaves the state alone for the main language. -/
def updateLanguageState (detected : String) (s : LangState) : LangState :=
  let nd := normalizeLanguage detected
  let nml := if s.mainLang = "" then "zh" else normalizeLanguage s.mainLang
  let ntl := if s.targetLang = "" then "en" else normalizeLanguage s.targetLang
  if s.isFirst then
    { mainLang := nd
      targetLang := if nd ≠ "en" then "en" else "zh"
      isFirst := false }
  else
    if nd ≠ nml ∧ nd ≠ ntl then
      { s with targetLang := nd }
    else if nd = ntl then
      { mainLang := ntl, targetLang := nml, isFirst := s.isFirst }
    else
      s

/-- A state write scheduled by `updateLanguageState` through `setTimeout`:
the deferred first-flag flip, the deferred target override, or the deferred
swap of both languages. -/
inductive DeferredTask where
  | flipFirst : DeferredTask
  | writeTarget (v : String) : DeferredTask
  | swapPair (newMain newTarget : String) : DeferredTask
deriving DecidableEq, Repr

/-- Language-pair state together with the queue of `setTimeout` callbacks
scheduled by `updateLanguageState` but not yet fired. -/
structure SchedState where
  ml : String
  tl : String
  isFirst : Bool
  pending : List DeferredTask
deriving DecidableEq, Repr

/-- Embedding of one call to `updateLanguageState` at the scheduling level:
synchronous `setML`/`setTL` writes of the first branch apply immediately,
while `setIsFirst(false)` and the steady-branch writes are queued (the
source wraps them in `setTimeout(..., 100)`). -/
def applyClassification (detected : String) (s : SchedState) : SchedState :=
  let nd := normalizeLanguage detected
  let nml := if s.ml = "" then "zh" else normalizeLanguage s.ml
  let ntl := if s.tl = "" then "en" else normalizeLanguage s.tl
  if s.isFirst then
    { s with
        ml := nd
        tl := if nd ≠ "en" then "en" else "zh"
        pending := s.pending ++ [DeferredTask.flipFirst] }
  else
    if nd ≠ nml ∧ nd ≠ ntl then
      { s with pending := s.pending ++ [DeferredTask.writeTarget nd] }
    else if nd = ntl then
      { s with pending := s.pending ++ [DeferredTask.swapPair ntl nml] }
    else
      s

/-- Firing one scheduled task. -/
def runTask (s : SchedState) (t : DeferredTask) : SchedState :=
  match t with
  | DeferredTask.flipFirst => { s with isFirst := false }
  | DeferredTask.writeTarget v => { s with tl := v }
  | DeferredTask.swapPair a b => { s with ml := a, tl := b }

/-- Firing a list of scheduled tasks in order. -/
def runTasks (ts : List DeferredTask) (s : SchedState) : SchedState :=
  ts.foldl runTask s

/-- Firing every pending task of a state, emptying its queue. -/
def runPending (s : SchedState) : SchedState :=
  { runTasks s.pending s with pending := [] }

/-- Projection of a scheduler state to the plain language-pair state. -/
def stateOf (s : SchedState) : LangState :=
  { mainLang := s.ml, targetLang := s.tl, isFirst := s.isFirst }

/-- The scheduler state at session start: `mainLang = "zh"`,
`lastTargetLang = "en"`, `isFirstMessage = true`, nothing scheduled. -/
def schedInit : SchedState :=
  { ml := "zh", tl := "en", isFirst := true, pending := [] }

/-- C1: in the steady state (`isFirstUtterance = false`) with distinct
normalised languages `main = A`, `target = B`, one classification result `d`
yields the swap for `d = B`, no change for `d = A`, and the target override
for a third language. -/
theorem updateLanguageState_steady_cases
    (A B d : String)
    (hA : normalizeLanguage A = A) (hB : normalizeLanguage B = B)
    (hd : normalizeLanguage d = d)
    (hA0 : A ≠ "") (hB0 : B ≠ "") (hAB : A ≠ B) :
    (d = B → updateLanguageState d ⟨A, B, false⟩ = ⟨B, A, false⟩) ∧
    (d = A → updateLanguageState d ⟨A, B, false⟩ = ⟨A, B, false⟩) ∧
    (d ≠ A → d ≠ B → updateLanguageState d ⟨A, B, false⟩ = ⟨A, d, false⟩) := by
  refine ⟨?_, ?_, ?_⟩
  · intro hdB
    subst hdB
    simp [updateLanguageState, hA0, hB0, hA, hB, hd, hAB, Ne.symm hAB]
  · intro hdA
    subst hdA
    simp [updateLanguageState, hA0, hB0, hA, hB, hd, hAB]
  · intro hdA hdB
    simp [updateLanguageState, hA0, hB0, hA, hB, hd, hdA, hdB]

/-- Witness for C1 at `A = "zh"`, `B = "en"`, `d = "fr"` (the override case
of Scenario A). -/
theorem updateLanguageState_steady_cases_witness :
    normalizeLanguage "zh" = "zh" ∧ normalizeLanguage "en" = "en" ∧
    normalizeLanguage "fr" = "fr" ∧
    updateLanguageState "fr" ⟨"zh", "en", false⟩ = ⟨"zh", "fr", false⟩ :=
  ⟨by decide, by decide, by decide,
    (updateLanguageState_steady_cases "zh" "en" "fr" (by decide) (by decide)
      (by decide) (by decide) (by decide) (by decide)).2.2
      (by decide) (by decide)⟩

/-- C2: the first processed classification result `d` (normalised, not the
unknown sentinel) sets `main = d` and the target to the fixed fallback:
`"zh"` when `d = "en"`, else `"en"`; the fallback differs from `d` and the
first-utterance flag ends up false. -/
theorem updateLanguageState_first_init
    (d ml tl : String)
    (hd : normalizeLanguage d = d) (hu : d ≠ "unknown") :
    updateLanguageState d ⟨ml, tl, true⟩ =
      ⟨d, if d = "en" then "zh" else "en", false⟩ ∧
    (if d = "en" then "zh" else "en") ≠ d := by
  constructor
  · by_cases hen : d = "en"
    · subst hen
      simp [updateLanguageState, hd]
    · simp [updateLanguageState, hd, hen]
  · by_cases hen : d = "en"
    · subst hen
      simp
    · simp [hen]
      exact fun h => hen h.symm

/-- Witness for C2 at `d = "zh"` (Scenario A's first utterance). -/
theorem updateLanguageState_first_init_witness :
    normalizeLanguage "zh" = "zh" ∧ ("zh" : String) ≠ "unknown" ∧
    (updateLanguageState "zh" ⟨"", "", true⟩ =
        ⟨"zh", if ("zh" : String) = "en" then "zh" else "en", false⟩ ∧
      (if ("zh" : String) = "en" then "zh" else "en") ≠ "zh") :=
  ⟨by decide, by decide,
    updateLanguageState_first_init "zh" "" "" (by decide) (by decide)⟩

/-- Firing tasks never raises the first-utterance flag back to true. -/
theorem runTasks_isFirst_false (ts : List DeferredTask) :
    ∀ s : SchedState, s.isFirst = false → (runTasks ts s).isFirst = false := by
  induction ts with
  | nil => intro s h; exact h
  | cons t ts ih =>
    intro s h
    have hstep : (runTask s t).isFirst = false := by
      cases t <;> simp [runTask] <;> exact h
    simpa [runTasks, List.foldl_cons] using ih (runTask s t) hstep

/-- Counterexample to C3: two classification events queued concurrently.
The first event (`"zh"`) schedules the `setIsFirst(false)` flip through
`setTimeout`, so when the second event (`"fr"`) is applied before the flip
fires it still reads `isFirstUtterance = true` and re-runs first-utterance
initialisation, ending in `main = "fr", target = "en"` — whereas the
steady-state rule the claim mandates for every later event would give
`main = "zh", target = "fr"`. -/
theorem firstUtterance_concurrent_cex :
    (applyClassification "zh" schedInit).isFirst = true ∧
    (runPending (applyClassification "fr"
        (applyClassification "zh" schedInit))).ml = "fr" ∧
    (runPending (applyClassification "fr"
        (applyClassification "zh" schedInit))).tl = "en" ∧
    updateLanguageState "fr" ⟨"zh", "en", false⟩ = ⟨"zh", "fr", false⟩ := by
  decide

/-- C3 as amended: an event applied while the flag still reads true re-runs
initialisation and (only) schedules the flip; an event applied after the
flag reads false follows the steady-state rule, and the flag, once false,
never becomes true again (neither the application nor firing the scheduled
tasks can raise it). -/
theorem applyClassification_first_flag (d : String) (s : SchedState) :
    (s.isFirst = true →
      (applyClassification d s).ml = normalizeLanguage d ∧
      (applyClassification d s).isFirst = true ∧
      (applyClassification d s).pending =
        s.pending ++ [DeferredTask.flipFirst] ∧
      (runPending (applyClassification d s)).isFirst = false) ∧
    (s.isFirst = false →
      (applyClassification d s).isFirst = false ∧
      (runPending (applyClassification d s)).isFirst = false ∧
      (s.pending = [] →
        stateOf (runPending (applyClassification d s)) =
          updateLanguageState d ⟨s.ml, s.tl, false⟩)) := by
  constructor
  · intro h1
    refine ⟨?_, ?_, ?_, ?_⟩
    · simp [applyClassification, h1]
    · simp [applyClassification, h1]
    · simp [applyClassification, h1]
    · simp [applyClassification, h1, runPending, runTasks, List.foldl_append,
        runTask]
  · intro h0
    have hbranch :
        applyClassification d s = s ∨
        ∃ v, applyClassification d s =
          { s with pending := s.pending ++ [DeferredTask.writeTarget v] } ∨
          applyClassification d s =
            { s with pending := s.pending ++ [DeferredTask.swapPair v
              (if s.ml = "" then "zh" else normalizeLanguage s.ml)] } := by
      by_cases hc1 :
          normalizeLanguage d ≠ (if s.ml = "" then "zh" else normalizeLanguage s.ml) ∧
          normalizeLanguage d ≠ (if s.tl = "" then "en" else normalizeLanguage s.tl)
      · exact Or.inr ⟨normalizeLanguage d, Or.inl (by simp [applyClassification, h0, hc1])⟩
      · by_cases hc2 :
            normalizeLanguage d = (if s.tl = "" then "en" else normalizeLanguage s.tl)
        · exact Or.inr ⟨if s.tl = "" then "en" else normalizeLanguage s.tl,
            Or.inr (by simp [applyClassification, h0, hc1, hc2])⟩
        · have hm : normalizeLanguage d =
              (if s.ml = "" then "zh" else normalizeLanguage s.ml) := by
            by_contra hne
            exact hc1 ⟨hne, hc2⟩
          have hc2' := hc2
          rw [hm] at hc2'
          exact Or.inl (by simp [applyClassification, h0, hm, hc2, hc2'])
    refine ⟨?_, ?_, ?_⟩
    · rcases hbranch with h | ⟨v, h | h⟩ <;> simp [h, h0]
    · rcases hbranch with h | ⟨v, h | h⟩ <;>
        · rw [h]
          exact runTasks_isFirst_false _ _ (by simpa using h0)
    · intro hp
      by_cases hc1 :
          normalizeLanguage d ≠ (if s.ml = "" then "zh" else normalizeLanguage s.ml) ∧
          normalizeLanguage d ≠ (if s.tl = "" then "en" else normalizeLanguage s.tl)
      · simp [applyClassification, updateLanguageState, h0, hc1, hp,
          runPending, runTasks, runTask, stateOf]
      · by_cases hc2 :
            normalizeLanguage d = (if s.tl = "" then "en" else normalizeLanguage s.tl)
        · simp [applyClassification, updateLanguageState, h0, hc1, hc2, hp,
            runPending, runTasks, runTask, stateOf]
        · have hm : normalizeLanguage d =
              (if s.ml = "" then "zh" else normalizeLanguage s.ml) := by
            by_contra hne
            exact hc1 ⟨hne, hc2⟩
          have hc2' := hc2
          rw [hm] at hc2'
          simp [applyClassification, updateLanguageState, h0, hm, hc2, hc2',
            hp, runPending, runTasks, stateOf]

/-- Witness for the amended C3 at the steady state reached after Scenario
A's first two utterances: with the flip fired (`isFirst = false`, empty
queue) the event `"fr"` follows the steady-state override rule. -/
theorem applyClassification_first_flag_witness :
    (⟨"en", "zh", false, []⟩ : SchedState).isFirst = false ∧
    stateOf (runPending (applyClassification "fr" ⟨"en", "zh", false, []⟩)) =
      updateLanguageState "fr" ⟨"en", "zh", false⟩ :=
  ⟨rfl, ((applyClassification_first_flag "fr" ⟨"en", "zh", false, []⟩).2
    rfl).2.2 rfl⟩

/-- Counterexample to C4: the steady-state swap rewrites both fields in one
classification event.  From `main = "en", target = "zh"` (not the first
utterance), detecting `"zh"` changes the main language and the target
language simultaneously. -/
theorem swap_rewrites_both_cex :
    (⟨"en", "zh", false⟩ : LangState).isFirst = false ∧
    (updateLanguageState "zh" ⟨"en", "zh", false⟩).mainLang ≠ "en" ∧
    (updateLanguageState "zh" ⟨"en", "zh", false⟩).targetLang ≠ "zh" := by
  decide

/-- C4 as amended: per steady-state classification event the override case
writes only the target language, the no-change case writes neither field,
and the swap case — like first-utterance initialisation — rewrites both
fields simultaneously. -/
theorem updateLanguageState_frame (d : String) (s : LangState)
    (h0 : s.isFirst = false) :
    (normalizeLanguage d ≠ (if s.mainLang = "" then "zh" else normalizeLanguage s.mainLang) ∧
     normalizeLanguage d ≠ (if s.targetLang = "" then "en" else normalizeLanguage s.targetLang) →
      updateLanguageState d s = { s with targetLang := normalizeLanguage d }) ∧
    (normalizeLanguage d = (if s.targetLang = "" then "en" else normalizeLanguage s.targetLang) →
      updateLanguageState d s =
        ⟨if s.targetLang = "" then "en" else normalizeLanguage s.targetLang,
         if s.mainLang = "" then "zh" else normalizeLanguage s.mainLang, false⟩) ∧
    (normalizeLanguage d = (if s.mainLang = "" then "zh" else normalizeLanguage s.mainLang) →
     normalizeLanguage d ≠ (if s.targetLang = "" then "en" else normalizeLanguage s.targetLang) →
      updateLanguageState d s = s) := by
  refine ⟨?_, ?_, ?_⟩
  · intro hc
    simp [updateLanguageState, h0, hc]
  · intro hc
    by_cases hm :
        normalizeLanguage d = (if s.mainLang = "" then "zh" else normalizeLanguage s.mainLang)
    · simp [updateLanguageState, h0, hc, hm]
    · simp [updateLanguageState, h0, hc, hm]
  · intro hm hc
    have hc' := hc
    rw [hm] at hc'
    simp [updateLanguageState, h0, hm, hc, hc']

/-- Witness for the amended C4: the override case at `d = "fr"` from
`main = "zh", target = "en"` writes only the target field. -/
theorem updateLanguageState_frame_witness :
    (⟨"zh", "en", false⟩ : LangState).isFirst = false ∧
    updateLanguageState "fr" ⟨"zh", "en", false⟩ = ⟨"zh", "fr", false⟩ :=
  ⟨rfl, (updateLanguageState_frame "fr" ⟨"zh", "en", false⟩ rfl).1 (by decide)⟩

/-- One transcript ledger entry (TranscriptContext item): stable id, role,
text content (`title`), lifecycle status, creation time and visibility. -/
structure TranscriptItem where
  itemId : String
  role : String
  title : String
  status : String
  createdAtMs : Int
  isHidden : Bool
deriving DecidableEq, Repr

/-- The fresh ledger entry built by the `create` operation. -/
def createdEntry (nowMs : Int) (itemId role title : String) (hidden : Bool) :
    TranscriptItem :=
  { itemId := itemId, role := role, title := title, status := "IN_PROGRESS",
    createdAtMs := nowMs, isHidden := hidden }

/-- Modelled from the spec: `TranscriptContext.addTranscriptMessage` — the
ledger `create` operation — is not among the provided sources (App.tsx and
the hook only call it).  Per §4.3 of the spec, `create(id, role, content)`
fails silently (no-op) when `id` already exists, otherwise appends a new
entry whose status starts `IN_PROGRESS`. -/
def addTranscriptMessage (items : List TranscriptItem) (nowMs : Int)
    (itemId role title : String) (hidden : Bool) : List TranscriptItem :=
  if items.any (fun it => it.itemId == itemId) then items
  else items ++ [createdEntry nowMs itemId role title hidden]

/-- The payload of a `conversation.item.created` server event, with `text`
standing for `content[0].text || content[0].transcript || ""` and empty
strings standing for absent fields. -/
structure ItemCreatedEvent where
  itemId : String
  role : String
  text : String
deriving DecidableEq, Repr

/-- JavaScript truthiness of the global `window.lastTranscriptId`
(`null` or the empty string are falsy). -/
def optTruthy : Option String → Bool
  | some s => s ≠ ""
  | none => false

/-- Whether `text.trim() === ""` holds: every character is whitespace. -/
def isBlankStr (s : String) : Bool :=
  s.data.all (fun c => c = ' ' ∨ c = '\t' ∨ c = '\n' ∨ c = '\r')

/-- Embedding of the `conversation.item.created` case of `handleServerEvent`
(useHandleServerEvent): drop events whose item id is shorter than 10
characters, drop ids already present in the transcript, drop empty
assistant payloads while a local realtime transcript entry is referenced,
and otherwise create the entry (empty user text becomes the
`[Transcribing...]` placeholder). -/
def handleConversationItemCreated (lastTranscriptId : Option String)
    (items : List TranscriptItem) (ev : ItemCreatedEvent) :
    List TranscriptItem :=
  if ev.itemId.length < 10 then items
  else if items.any (fun it => it.itemId == ev.itemId) then items
  else if ev.role == "assistant" && isBlankStr ev.text &&
      optTruthy lastTranscriptId then items
  else if ev.role != "" then
    addTranscriptMessage items 0 ev.itemId ev.role
      (if ev.role == "user" && ev.text == "" then "[Transcribing...]"
       else ev.text) false
  else items

/-- An event whose item id already occurs in the transcript is dropped. -/
theorem handleItemCreated_of_any_true
    (lastId : Option String) (items : List TranscriptItem)
    (ev : ItemCreatedEvent)
    (hany : (items.any (fun it => it.itemId == ev.itemId)) = true) :
    handleConversationItemCreated lastId items ev = items := by
  unfold handleConversationItemCreated
  by_cases hlen : ev.itemId.length < 10
  · simp [hlen]
  · simp [hlen, hany]

/-- C5: a remote-peer `conversation.item.created` event carrying
`role = user` whose item id is already present in the transcript — as
happens when the local recognizer's final transcript was sent through
`sendCustomUserMessage` under that same id — leaves the transcript
unchanged: no second visible user entry is created. -/
theorem handleItemCreated_dedup
    (lastId : Option String) (items : List TranscriptItem)
    (ev : ItemCreatedEvent) (e : TranscriptItem)
    (_hrole : ev.role = "user") (hmem : e ∈ items)
    (hid : e.itemId = ev.itemId) (_herole : e.role = "user") :
    handleConversationItemCreated lastId items ev = items :=
  handleItemCreated_of_any_true lastId items ev
    (List.any_eq_true.2 ⟨e, hmem, by simp [hid]⟩)

/-- Witness for C5: the locally created turn entry blocks the remote echo. -/
theorem handleItemCreated_dedup_witness :
    (⟨"local-turn-0001", "user", "hello"⟩ : ItemCreatedEvent).role = "user" ∧
    (⟨"local-turn-0001", "user", "hello", "IN_PROGRESS", 0, false⟩ :
        TranscriptItem) ∈
      [(⟨"local-turn-0001", "user", "hello", "IN_PROGRESS", 0, false⟩ :
        TranscriptItem)] ∧
    handleConversationItemCreated none
        [⟨"local-turn-0001", "user", "hello", "IN_PROGRESS", 0, false⟩]
        ⟨"local-turn-0001", "user", "hello"⟩ =
      [⟨"local-turn-0001", "user", "hello", "IN_PROGRESS", 0, false⟩] :=
  ⟨rfl, by decide,
    handleItemCreated_dedup none _ _
      ⟨"local-turn-0001", "user", "hello", "IN_PROGRESS", 0, false⟩
      rfl (by decide) rfl rfl⟩

/-- C8: applying the same `conversation.item.created` event twice to a
transcript not yet containing its id leaves exactly one entry for that id,
and the second application is the identity. -/
theorem handleItemCreated_idempotent
    (lastId : Option String) (items : List TranscriptItem)
    (ev : ItemCreatedEvent)
    (hlen : 10 ≤ ev.itemId.length)
    (hrole : ev.role = "user" ∨ ev.role = "assistant")
    (hskip : (ev.role == "assistant" && isBlankStr ev.text &&
      optTruthy lastId) = false)
    (hfresh : items.countP (fun it => it.itemId == ev.itemId) = 0) :
    handleConversationItemCreated lastId
        (handleConversationItemCreated lastId items ev) ev =
      handleConversationItemCreated lastId items ev ∧
    (handleConversationItemCreated lastId items ev).countP
        (fun it => it.itemId == ev.itemId) = 1 := by
  have hlt : ¬ ev.itemId.length < 10 := by omega
  have hany0 : (items.any (fun it => it.itemId == ev.itemId)) = false := by
    rw [List.any_eq_false]
    intro it hit
    have := (List.countP_eq_zero).1 hfresh it hit
    simpa using this
  have hne : (ev.role != "") = true := by
    rcases hrole with h | h <;> rw [h] <;> decide
  have honce : handleConversationItemCreated lastId items ev =
      items ++ [createdEntry 0 ev.itemId ev.role
        (if ev.role == "user" && ev.text == "" then "[Transcribing...]"
         else ev.text) false] := by
    unfold handleConversationItemCreated addTranscriptMessage
    simp [hlt, hany0, hskip, hne]
  constructor
  · have hanyOnce : ((items ++ [createdEntry 0 ev.itemId ev.role
        (if ev.role == "user" && ev.text == "" then "[Transcribing...]"
         else ev.text) false]).any (fun it => it.itemId == ev.itemId))
        = true := by
      rw [List.any_append]
      simp [createdEntry]
    rw [honce]
    exact handleItemCreated_of_any_true lastId _ ev hanyOnce
  · rw [honce, List.countP_append, hfresh]
    simp [List.countP_cons, createdEntry]

/-- Witness for C8: one remote user item applied twice to the empty
transcript. -/
theorem handleItemCreated_idempotent_witness :
    10 ≤ ("remote-item-01" : String).length ∧
    (handleConversationItemCreated none
        (handleConversationItemCreated none []
          ⟨"remote-item-01", "user", "hi"⟩)
        ⟨"remote-item-01", "user", "hi"⟩ =
      handleConversationItemCreated none []
        ⟨"remote-item-01", "user", "hi"⟩ ∧
      (handleConversationItemCreated none []
          ⟨"remote-item-01", "user", "hi"⟩).countP
        (fun it => it.itemId == "remote-item-01") = 1) :=
  ⟨by decide,
    handleItemCreated_idempotent none [] ⟨"remote-item-01", "user", "hi"⟩
      (by decide) (Or.inl rfl) (by decide) rfl⟩

/-- An outbound client control message sent over the data channel. -/
inductive OutMsg where
  | inputAudioBufferClear : OutMsg
  | sessionUpdate (instructions : String) : OutMsg
  | conversationItemCreate (id role text : String) : OutMsg
  | responseCreate : OutMsg
  | itemTruncate (itemId : String) (contentIndex : Nat) (audioEndMs : Int) :
      OutMsg
  | responseCancel : OutMsg
deriving DecidableEq, Repr

/-- Embedding of `uuidv4().slice(0, 32)` (App.tsx), the generator of every
locally created transcript entry id: the UUID string truncated to its
first 32 characters. -/
def genLocalId (uuid : String) : String :=
  String.mk (uuid.data.take 32)

/-- The reverse-scan for the most recent in-progress assistant entry used
by `cancelAssistantSpeech` (App.tsx). -/
def findActiveAssistant (items : List TranscriptItem) :
    Option TranscriptItem :=
  items.reverse.find?
    (fun it => it.role == "assistant" && it.status == "IN_PROGRESS")

/-- Embedding of `cancelAssistantSpeech` (App.tsx): locate the most recent
in-progress assistant entry; return silently when there is none or when its
id is falsy, shorter than 36 characters or dash-free; otherwise emit the
`conversation.item.truncate` and `response.cancel` control messages and the
cancellation breadcrumb. -/
def cancelAssistantSpeech (items : List TranscriptItem) (nowMs : Int) :
    List OutMsg × Option String :=
  match findActiveAssistant items with
  | none => ([], none)
  | some m =>
    if m.itemId = "" ∨ m.itemId.length < 36 ∨
        ¬ (m.itemId.data.any (fun c => c = '-') = true) then
      ([], none)
    else
      ([OutMsg.itemTruncate m.itemId 0 (nowMs - m.createdAtMs),
        OutMsg.responseCancel],
       some "已取消助手回应")

/-- C9: locally generated ids are 32 characters long, below the
36-character threshold `cancelAssistantSpeech` requires, so whenever the
most recent in-progress assistant entry carries a locally generated id the
function emits no control message and adds no breadcrumb. -/
theorem cancelAssistantSpeech_local_noop
    (uuid : String) (items : List TranscriptItem) (nowMs : Int)
    (m : TranscriptItem)
    (hlen : uuid.length = 36)
    (hfind : findActiveAssistant items = some m)
    (hid : m.itemId = genLocalId uuid) :
    (genLocalId uuid).length = 32 ∧
    cancelAssistantSpeech items nowMs = ([], none) := by
  have hdata : uuid.data.length = 36 := hlen
  have h32 : (genLocalId uuid).length = 32 := by
    show (uuid.data.take 32).length = 32
    rw [List.length_take, hdata]
    decide
  refine ⟨h32, ?_⟩
  unfold cancelAssistantSpeech
  rw [hfind]
  have hlt : m.itemId.length < 36 := by
    rw [hid, h32]
    omega
  exact if_pos (Or.inr (Or.inl hlt))

/-- A sample 36-character UUID string. -/
def sampleUuid : String := "aaaaaaaa-aaaa-4aaa-8aaa-aaaaaaaaaaaa"

/-- A locally created in-progress assistant entry (id generated by
`uuidv4().slice(0, 32)`). -/
def sampleAssistantItem : TranscriptItem :=
  ⟨genLocalId sampleUuid, "assistant", "…", "IN_PROGRESS", 0, false⟩

/-- Witness for C9: a transcript whose only in-progress assistant entry
carries a locally generated 32-character id. -/
theorem cancelAssistantSpeech_local_noop_witness :
    sampleUuid.length = 36 ∧
    findActiveAssistant [sampleAssistantItem] = some sampleAssistantItem ∧
    ((genLocalId sampleUuid).length = 32 ∧
      cancelAssistantSpeech [sampleAssistantItem] 1000 = ([], none)) :=
  ⟨by decide, by decide,
    cancelAssistantSpeech_local_noop sampleUuid [sampleAssistantItem] 1000
      sampleAssistantItem (by decide) (by decide) rfl⟩

/-- Fuel-bounded global replacement of a non-empty pattern in a character
list, the behaviour of `String.replace(/pat/g, repl)`. -/
def replaceList (pat repl : List Char) : Nat → List Char → List Char
  | _, [] => []
  | 0, l => l
  | Nat.succ fuel, c :: rest =>
    if pat ≠ [] ∧ pat.isPrefixOf (c :: rest) then
      repl ++ replaceList pat repl fuel (List.drop pat.length (c :: rest))
    else
      c :: replaceList pat repl fuel rest

/-- Global string replacement (JavaScript `replace` with a `/g` regex of a
literal pattern). -/
def replaceStr (s pat repl : String) : String :=
  String.mk (replaceList pat.data repl.data s.data.length s.data)

/-- Embedding of the instruction composition inside `updateSession`
(App.tsx): when both languages are truthy, substitute the
`$\x7bactualML\x7d` / `$\x7bactualTL\x7d` template variables and append the
timestamped reset comment lines that defeat remote caching. -/
def composeInstructions (tmpl mainLang targetLang : String)
    (timestampMs : Int) : String :=
  if mainLang ≠ "" ∧ targetLang ≠ "" then
    replaceStr (replaceStr tmpl "$\x7bactualML\x7d" mainLang)
        "$\x7bactualTL\x7d" targetLang
      ++ "\n\n// SYSTEM RESET: Translation settings updated at "
      ++ toString timestampMs
      ++ "\n// IMPORTANT: From now on, translate: ML=" ++ mainLang
      ++ ", TL=" ++ targetLang
  else tmpl

/-- The App state consulted by `updateSession`: the `isInstructionUpdating`
lock flag set by the language-change effect, whether the data channel is
open, the selected agent's instruction template and the language pair. -/
structure SyncState where
  isInstructionUpdating : Bool
  dcOpen : Bool
  instructions : String
  mainLang : String
  lastTargetLang : String
deriving DecidableEq, Repr

/-- Embedding of `updateSession` (App.tsx) at its default call sites
(`shouldTriggerResponse = false`, as in the data-channel open handler and
the language-change effect): with the data channel open it sends the
`input_audio_buffer.clear` and `session.update` control messages; with the
channel closed `sendClientEvent` drops both.  The function does not consult
`isInstructionUpdating`, faithful to the source. -/
def updateSession (s : SyncState) (nowMs : Int) : List OutMsg :=
  if s.dcOpen then
    [OutMsg.inputAudioBufferClear,
     OutMsg.sessionUpdate
       (composeInstructions s.instructions s.mainLang s.lastTargetLang nowMs)]
  else []

/-- A state in which the `isInstructionUpdating` lock is held and the data
channel is open. -/
def lockedSyncState : SyncState :=
  { isInstructionUpdating := true, dcOpen := true, instructions := "T",
    mainLang := "zh", lastTargetLang := "en" }

/-- Counterexample to C6: with the boolean in-flight lock
(`isInstructionUpdating`) held, a call to `updateSession` still emits the
outbound `session.update` message — the source never consults the lock in
`updateSession`, so the second call within the lock-hold window is not a
no-op. -/
theorem updateSession_locked_emits_cex :
    lockedSyncState.isInstructionUpdating = true ∧
    updateSession lockedSyncState 0 =
      [OutMsg.inputAudioBufferClear,
       OutMsg.sessionUpdate (composeInstructions "T" "zh" "en" 0)] :=
  ⟨rfl, rfl⟩

/-- C6 as amended: `updateSession` is independent of the
`isInstructionUpdating` lock — every call with an open data channel emits
the buffer-clear and `session.update` messages, whether or not the lock is
held (the lock only gates `handleTalkButtonDown`); in particular a call
after the settle delay also emits. -/
theorem updateSession_lock_independent (s : SyncState) (nowMs : Int)
    (hdc : s.dcOpen = true) :
    updateSession s nowMs =
      [OutMsg.inputAudioBufferClear,
       OutMsg.sessionUpdate
         (composeInstructions s.instructions s.mainLang s.lastTargetLang
           nowMs)] ∧
    updateSession { s with isInstructionUpdating := true } nowMs =
      updateSession { s with isInstructionUpdating := false } nowMs := by
  constructor
  · simp [updateSession, hdc]
  · simp [updateSession, hdc]

/-- Witness for the amended C6. -/
theorem updateSession_lock_independent_witness :
    lockedSyncState.dcOpen = true ∧
    updateSession { lockedSyncState with isInstructionUpdating := true } 5 =
      updateSession { lockedSyncState with isInstructionUpdating := false }
        5 :=
  ⟨rfl, (updateSession_lock_independent lockedSyncState 5 rfl).2⟩

/-- Connection status of the realtime session (`SessionStatus` in the
source). -/
inductive ConnStatus where
  | disconnected : ConnStatus
  | connecting : ConnStatus
  | connected : ConnStatus
deriving DecidableEq, Repr

/-- Connection supervisor state: `connectionAttempts`,
`lastConnectionAttempt` and `sessionStatus` from App.tsx. -/
structure ConnState where
  attempts : Nat
  lastAttempt : Int
  status : ConnStatus
deriving DecidableEq, Repr

/-- `MAX_CONNECTION_ATTEMPTS` from App.tsx. -/
def MAX_CONNECTION_ATTEMPTS : Nat := 3

/-- `CONNECTION_COOLDOWN_MS` from App.tsx (5 second cooldown). -/
def CONNECTION_COOLDOWN_MS : Int := 5000

/-- Embedding of the synchronous prefix of `connectToRealtime` (App.tsx):
reject (returning the cooldown notice, flag `true`) when the attempt count
has reached the maximum and the cooldown since the last attempt has not
elapsed; otherwise, from `DISCONNECTED`, increment the attempt count, stamp
the attempt time and move to `CONNECTING`. -/
def connectToRealtime (now : Int) (s : ConnState) : ConnState × Bool :=
  if MAX_CONNECTION_ATTEMPTS ≤ s.attempts ∧
      now - s.lastAttempt < CONNECTION_COOLDOWN_MS then
    (s, true)
  else if s.status ≠ ConnStatus.disconnected then
    (s, false)
  else
    ({ attempts := s.attempts + 1, lastAttempt := now,
       status := ConnStatus.connecting }, false)

/-- Embedding of the reconnect effect (App.tsx): while `DISCONNECTED` with
an agent selected, schedule a reconnect (flag `true`) when attempts remain,
otherwise reset the attempt count once the cooldown has strictly elapsed. -/
def reconnectEffect (now : Int) (hasAgent : Bool) (s : ConnState) :
    ConnState × Bool :=
  if s.status = ConnStatus.disconnected ∧ hasAgent = true then
    if s.attempts < MAX_CONNECTION_ATTEMPTS then (s, true)
    else if CONNECTION_COOLDOWN_MS < now - s.lastAttempt then
      ({ s with attempts := 0 }, false)
    else (s, false)
  else (s, false)

/-- C7: with the maximum attempt count reached and the cooldown not yet
elapsed, a connect call is rejected leaving the attempt count, timestamp
and status untouched; once the cooldown has elapsed a connect call from
`DISCONNECTED` proceeds (incrementing the count and moving to
`CONNECTING`), and the reconnect effect resets the attempt count to zero. -/
theorem connectToRealtime_cooldown_gate (now : Int) (s : ConnState) :
    (MAX_CONNECTION_ATTEMPTS ≤ s.attempts →
      now - s.lastAttempt < CONNECTION_COOLDOWN_MS →
      connectToRealtime now s = (s, true)) ∧
    (CONNECTION_COOLDOWN_MS ≤ now - s.lastAttempt →
      s.status = ConnStatus.disconnected →
      connectToRealtime now s =
        ({ attempts := s.attempts + 1, lastAttempt := now,
           status := ConnStatus.connecting }, false)) ∧
    (s.status = ConnStatus.disconnected →
      MAX_CONNECTION_ATTEMPTS ≤ s.attempts →
      CONNECTION_COOLDOWN_MS < now - s.lastAttempt →
      reconnectEffect now true s = ({ s with attempts := 0 }, false)) := by
  refine ⟨?_, ?_, ?_⟩
  · intro hmax hcool
    simp [connectToRealtime, hmax, hcool]
  · intro hcool hst
    have hng : ¬ (MAX_CONNECTION_ATTEMPTS ≤ s.attempts ∧
        now - s.lastAttempt < CONNECTION_COOLDOWN_MS) := by
      rintro ⟨-, hlt⟩
      omega
    simp [connectToRealtime, hng, hst]
  · intro hst hmax hcool
    have hnl : ¬ s.attempts < MAX_CONNECTION_ATTEMPTS := by omega
    simp [reconnectEffect, hst, hnl, hcool]

/-- Witness for C7: three failed attempts at time 0; a call at 1000 ms is
rejected unchanged, while at 6000 ms the effect resets the count and a
connect call proceeds. -/
theorem connectToRealtime_cooldown_gate_witness :
    connectToRealtime 1000 ⟨3, 0, ConnStatus.disconnected⟩ =
      (⟨3, 0, ConnStatus.disconnected⟩, true) ∧
    connectToRealtime 6000 ⟨3, 0, ConnStatus.disconnected⟩ =
      (⟨4, 6000, ConnStatus.connecting⟩, false) ∧
    reconnectEffect 6000 true ⟨3, 0, ConnStatus.disconnected⟩ =
      (⟨0, 0, ConnStatus.disconnected⟩, false) :=
  ⟨(connectToRealtime_cooldown_gate 1000 ⟨3, 0, ConnStatus.disconnected⟩).1
      (by decide) (by decide),
   (connectToRealtime_cooldown_gate 6000
      ⟨3, 0, ConnStatus.disconnected⟩).2.1 (by decide) rfl,
   (connectToRealtime_cooldown_gate 6000
      ⟨3, 0, ConnStatus.disconnected⟩).2.2 rfl (by decide) (by decide)⟩

/-- The `[a-zA-Z]` test of `detectBasicLanguage`. -/
def isAsciiLetter (c : Char) : Bool :=
  (97 ≤ c.toNat ∧ c.toNat ≤ 122) ∨ (65 ≤ c.toNat ∧ c.toNat ≤ 90)

/-- The `[ñáéíóúü]` Spanish-diacritic test of `detectBasicLanguage`. -/
def isSpanishMark (c : Char) : Bool :=
  c = 'ñ' ∨ c = 'á' ∨ c = 'é' ∨ c = 'í' ∨ c = 'ó' ∨ c = 'ú' ∨ c = 'ü'

/-- A character-code range test, one `[\uXXXX-\uYYYY]` character class. -/
def inCodeRange (lo hi : Nat) (c : Char) : Bool :=
  lo ≤ c.toNat ∧ c.toNat ≤ hi

/-- Embedding of `detectBasicLanguage` (useHandleServerEvent): the local
heuristic fallback classifier, testing character classes in source order —
ASCII Latin first (with the Spanish-diacritic refinement), then CJK, kana,
Cyrillic, Arabic, Devanagari, Hangul, Thai and Greek ranges, with the
`"unknown"` sentinel when nothing matches. -/
def detectBasicLanguage (text : String) : String :=
  if text.data.any isAsciiLetter then
    if text.data.any isSpanishMark then "es" else "en"
  else if text.data.any (inCodeRange 0x4e00 0x9fa5) then "zh"
  else if text.data.any (inCodeRange 0x3040 0x30ff) then "ja"
  else if text.data.any (inCodeRange 0x0400 0x04FF) then "ru"
  else if text.data.any (inCodeRange 0x0600 0x06FF) then "ar"
  else if text.data.any (inCodeRange 0x0900 0x097F) then "hi"
  else if text.data.any (fun c =>
      inCodeRange 0x1100 0x11FF c ∨ inCodeRange 0xAC00 0xD7AF c) then "ko"
  else if text.data.any (inCodeRange 0x0E00 0x0E7F) then "th"
  else if text.data.any (inCodeRange 0x0370 0x03FF) then "el"
  else "unknown"

/-- Whether any of the script rules of `detectBasicLanguage` matches. -/
def matchesAnyScriptRule (text : String) : Bool :=
  text.data.any isAsciiLetter ||
  text.data.any (inCodeRange 0x4e00 0x9fa5) ||
  text.data.any (inCodeRange 0x3040 0x30ff) ||
  text.data.any (inCodeRange 0x0400 0x04FF) ||
  text.data.any (inCodeRange 0x0600 0x06FF) ||
  text.data.any (inCodeRange 0x0900 0x097F) ||
  text.data.any (fun c =>
    inCodeRange 0x1100 0x11FF c ∨ inCodeRange 0xAC00 0xD7AF c) ||
  text.data.any (inCodeRange 0x0E00 0x0E7F) ||
  text.data.any (inCodeRange 0x0370 0x03FF)

/-- C10: `detectBasicLanguage` is total by construction and gives Latin
script precedence: any input containing an ASCII letter is classified
`"es"` (when a Spanish diacritic is also present) or `"en"`, never one of
the CJK, kana, Cyrillic, Arabic, Devanagari, Hangul, Thai or Greek tags,
regardless of which other scripts appear; and an input matching no script
rule yields the `"unknown"` sentinel. -/
theorem detectBasicLanguage_latin_precedence (t : String) :
    (t.data.any isAsciiLetter = true →
      detectBasicLanguage t =
        (if t.data.any isSpanishMark then "es" else "en")) ∧
    (matchesAnyScriptRule t = false → detectBasicLanguage t = "unknown") := by
  constructor
  · intro h
    simp [detectBasicLanguage, h]
  · intro h
    have h' := h
    simp only [matchesAnyScriptRule, Bool.or_eq_false_iff] at h'
    obtain ⟨⟨⟨⟨⟨⟨⟨⟨h1, h2⟩, h3⟩, h4⟩, h5⟩, h6⟩, h7⟩, h8⟩, h9⟩ := h'
    simp at h7
    simp [detectBasicLanguage, h1, h2, h3, h4, h5, h6, h8, h9]
    exact h7

/-- Witness for C10: an input mixing ASCII letters with CJK characters is
classified `"en"` (Latin precedence), and a digits-only input matches no
rule and yields `"unknown"`. -/
theorem detectBasicLanguage_latin_precedence_witness :
    ("hello你好".data.any isAsciiLetter = true) ∧
    detectBasicLanguage "hello你好" =
      (if "hello你好".data.any isSpanishMark then "es" else "en") ∧
    matchesAnyScriptRule "123" = false ∧
    detectBasicLanguage "123" = "unknown" :=
  ⟨by decide,
   (detectBasicLanguage_latin_precedence "hello你好").1 (by decide),
   by decide,
   (detectBasicLanguage_latin_precedence "123").2 (by decide)⟩
